import Mathlib

/-!
Shallow embedding of the GedeonChatBot relay (src/main.py), centred on the
`/chat` endpoint's bounded polling loop, plus the `/health` endpoint.

The remote assistant service is modelled as an environment (`Remote`): a
function giving the run status returned by each successive status retrieval,
and the thread's message list (most recent first) as returned by
`messages.list`.  Remote calls made by the handler are counted in a
`CallLog` so that claims about how many calls occur are statable.
-/

/-- Timeout after 60 polling attempts (src/main.py line 61). -/
def MAX_POLL_ATTEMPTS : Nat := 60

/-- Polling interval in time units (src/main.py line 62). -/
def POLL_INTERVAL : Nat := 1

/-- Result of one `runs.retrieve` call: the run's status string and its
optional `last_error` detail. -/
structure RunStatus where
  status : String
  last_error : Option String
deriving Repr, DecidableEq

/-- A structured HTTP error, as raised by `HTTPException(status_code, detail)`. -/
structure HTTPException where
  status_code : Nat
  detail : String
deriving Repr, DecidableEq

/-- A thread message as seen by the handler: `content` is the list of content
parts, each reduced to its `text.value` string (src/main.py line 150 reads
`content[0].text.value`). -/
structure Message where
  content : List String
deriving Repr, DecidableEq

/-- The remote service environment for one `/chat` request: `retrieve k` is
the `RunStatus` answered by the (k+1)-th status retrieval, and `messages` is
the thread's message list, most recent first, as `messages.list` returns it. -/
structure Remote where
  retrieve : Nat → RunStatus
  messages : List Message

/-- Request body of `/chat` (src/main.py lines 50-52). -/
structure ChatRequest where
  thread_id : String
  message : String
deriving Repr, DecidableEq

/-- Response body of `/chat` (src/main.py lines 57-58). -/
structure ChatResponse where
  response : String
deriving Repr, DecidableEq

/-- Count of remote calls performed while handling one `/chat` request. -/
structure CallLog where
  message_creates : Nat
  run_creates : Nat
  status_queries : Nat
  message_lists : Nat
deriving Repr, DecidableEq

/-- The terminal-failure status strings (src/main.py line 118). -/
def failureStatuses : List String := ["cancelling", "cancelled", "expired", "failed"]

/-- Error detail built for a terminal-failure status (src/main.py lines
119-121): the status is named, and `last_error` is appended only when the
status is `failed` and `last_error` is truthy. -/
def failureDetail (run_status : RunStatus) : String :=
  if run_status.status = "failed" then
    match run_status.last_error with
    | some err => "Run ended with status: " ++ run_status.status ++ " - Error: " ++ err
    | none => "Run ended with status: " ++ run_status.status
  else "Run ended with status: " ++ run_status.status

/-- How the `while attempts < MAX_POLL_ATTEMPTS` loop exits, remembering the
value of `attempts` at exit. -/
inductive LoopExit where
  | broke (attempts : Nat)
  | raised (e : HTTPException) (attempts : Nat)
  | exhausted (attempts : Nat)
deriving Repr, DecidableEq

/-- The polling loop of `/chat` (src/main.py lines 105-131), started with the
given `attempts` counter.  Each iteration performs one status retrieval:
`completed` breaks out of the loop, a failure status or `requires_action`
raises, and any other status sleeps and increments `attempts`. -/
def pollLoop (retrieve : Nat → RunStatus) (attempts : Nat) : LoopExit :=
  if h : attempts < MAX_POLL_ATTEMPTS then
    if (retrieve attempts).status = "completed" then
      LoopExit.broke attempts
    else if (retrieve attempts).status ∈ failureStatuses then
      LoopExit.raised ⟨500, failureDetail (retrieve attempts)⟩ attempts
    else if (retrieve attempts).status = "requires_action" then
      LoopExit.raised ⟨500, "Run requires action - function calling not implemented"⟩ attempts
    else
      pollLoop retrieve (attempts + 1)
  else LoopExit.exhausted attempts
termination_by MAX_POLL_ATTEMPTS - attempts
decreasing_by omega

/-- The tail of the `/chat` handler after the loop has finished without
raising (src/main.py lines 139-153): list messages with `limit=1`, fail with
500 when the list is empty, otherwise return `data[0].content[0].text.value`
(an out-of-range content access falls into the generic 500 handler of lines
157-159).  `q` is the number of status queries already performed. -/
def chatAfterLoop (remote : Remote) (q : Nat) :
    Except HTTPException ChatResponse × CallLog :=
  match remote.messages.take 1 with
  | [] => (Except.error ⟨500, "No response from assistant"⟩, ⟨1, 1, q, 1⟩)
  | m :: _ =>
    match m.content with
    | [] => (Except.error ⟨500, "Internal server error: list index out of range"⟩,
        ⟨1, 1, q, 1⟩)
    | c :: _ => (Except.ok ⟨c⟩, ⟨1, 1, q, 1⟩)

/-- What `/chat` does once the loop has exited (src/main.py lines 133-153):
a raised `HTTPException` propagates (lines 155-156); otherwise the
`attempts >= MAX_POLL_ATTEMPTS` check raises the 504 timeout, and only then
are the messages listed.  The recorded `status_queries` count is the number
of retrievals the loop performed before this exit. -/
def afterPoll (remote : Remote) :
    LoopExit → Except HTTPException ChatResponse × CallLog
  | LoopExit.raised e a => (Except.error e, ⟨1, 1, a + 1, 0⟩)
  | LoopExit.broke a =>
    if MAX_POLL_ATTEMPTS ≤ a then
      (Except.error ⟨504, "Request timeout: Assistant did not respond in time"⟩,
        ⟨1, 1, a + 1, 0⟩)
    else chatAfterLoop remote (a + 1)
  | LoopExit.exhausted a =>
    if MAX_POLL_ATTEMPTS ≤ a then
      (Except.error ⟨504, "Request timeout: Assistant did not respond in time"⟩,
        ⟨1, 1, a, 0⟩)
    else chatAfterLoop remote a

/-- The `/chat` handler (src/main.py lines 77-159) against a remote
environment.  Returns the HTTP outcome together with the log of remote calls
made.  A falsy (empty) `thread_id` is rejected with 400 before any remote
call; otherwise the user message and the run are created, the loop polls,
and `afterPoll` finishes the request. -/
def chat (chat_request : ChatRequest) (remote : Remote) :
    Except HTTPException ChatResponse × CallLog :=
  if chat_request.thread_id = "" then
    (Except.error ⟨400, "Missing thread_id"⟩, ⟨0, 0, 0, 0⟩)
  else
    afterPoll remote (pollLoop remote.retrieve 0)

/-- Application state read by `/health`: the global client handle and
assistant identifier (src/main.py lines 21-22), each possibly unset. -/
structure AppState where
  client : Option Unit
  assistant_id : Option String

/-- Response of `/health` (src/main.py lines 165-169). -/
structure HealthResponse where
  status : String
  openai_configured : Bool
  assistant_configured : Bool
deriving Repr, DecidableEq

/-- The `/health` handler (src/main.py lines 162-169). -/
def health_check (st : AppState) : HealthResponse :=
  { status := "healthy"
    openai_configured := st.client.isSome
    assistant_configured := st.assistant_id.isSome }

/-- A status string on which the loop stops: success, failure, or
`requires_action`. -/
def isTerminalStatus (s : String) : Prop :=
  s = "completed" ∨ s ∈ failureStatuses ∨ s = "requires_action"

instance (s : String) : Decidable (isTerminalStatus s) := by
  unfold isTerminalStatus; infer_instance

/-! ## Loop lemmas -/

/-- One loop iteration on a non-terminal status just advances the counter. -/
theorem pollLoop_step_nonterminal (retrieve : Nat → RunStatus) (a : Nat)
    (ha : a < MAX_POLL_ATTEMPTS) (hnt : ¬ isTerminalStatus (retrieve a).status) :
    pollLoop retrieve a = pollLoop retrieve (a + 1) := by
  have h1 : ¬ ((retrieve a).status = "completed") := fun h => hnt (Or.inl h)
  have h2 : ¬ ((retrieve a).status ∈ failureStatuses) := fun h => hnt (Or.inr (Or.inl h))
  have h3 : ¬ ((retrieve a).status = "requires_action") := fun h => hnt (Or.inr (Or.inr h))
  rw [pollLoop, dif_pos ha, if_neg h1, if_neg h2, if_neg h3]

/-- Running the loop across a stretch of non-terminal statuses. -/
theorem pollLoop_skip (retrieve : Nat → RunStatus) (a m : Nat) (ham : a ≤ m) :
    m ≤ MAX_POLL_ATTEMPTS →
    (∀ k, a ≤ k → k < m → ¬ isTerminalStatus (retrieve k).status) →
    pollLoop retrieve a = pollLoop retrieve m := by
  induction m, ham using Nat.le_induction with
  | base => intro _ _; rfl
  | succ n hn ih =>
    intro hm hnt
    have h1 : pollLoop retrieve a = pollLoop retrieve n :=
      ih (by omega) (fun k hk1 hk2 => hnt k hk1 (by omega))
    rw [h1]
    exact pollLoop_step_nonterminal retrieve n (by omega) (hnt n hn (by omega))

/-- A `completed` status breaks out of the loop at once. -/
theorem pollLoop_completed (retrieve : Nat → RunStatus) (a : Nat)
    (ha : a < MAX_POLL_ATTEMPTS) (hc : (retrieve a).status = "completed") :
    pollLoop retrieve a = LoopExit.broke a := by
  rw [pollLoop, dif_pos ha, if_pos hc]

/-- A terminal-failure status raises 500 with the classified detail at once. -/
theorem pollLoop_failure (retrieve : Nat → RunStatus) (a : Nat)
    (ha : a < MAX_POLL_ATTEMPTS) (hf : (retrieve a).status ∈ failureStatuses) :
    pollLoop retrieve a = LoopExit.raised ⟨500, failureDetail (retrieve a)⟩ a := by
  have h1 : ¬ ((retrieve a).status = "completed") := by
    intro h
    rw [h] at hf
    exact absurd hf (by decide)
  rw [pollLoop, dif_pos ha, if_neg h1, if_pos hf]

/-- A `requires_action` status raises the unsupported-feature 500 at once. -/
theorem pollLoop_requires_action (retrieve : Nat → RunStatus) (a : Nat)
    (ha : a < MAX_POLL_ATTEMPTS) (hr : (retrieve a).status = "requires_action") :
    pollLoop retrieve a =
      LoopExit.raised ⟨500, "Run requires action - function calling not implemented"⟩ a := by
  have h1 : ¬ ((retrieve a).status = "completed") := by rw [hr]; decide
  have h2 : ¬ ((retrieve a).status ∈ failureStatuses) := by rw [hr]; decide
  rw [pollLoop, dif_pos ha, if_neg h1, if_neg h2, if_pos hr]

/-- The loop never runs once the attempt budget is spent. -/
theorem pollLoop_budget_spent (retrieve : Nat → RunStatus) (a : Nat)
    (ha : MAX_POLL_ATTEMPTS ≤ a) :
    pollLoop retrieve a = LoopExit.exhausted a := by
  rw [pollLoop, dif_neg (by omega)]

/-- The number of status queries recorded by `chatAfterLoop` is whatever the
loop performed. -/
theorem chatAfterLoop_queries (remote : Remote) (q : Nat) :
    (chatAfterLoop remote q).2.status_queries = q := by
  unfold chatAfterLoop
  split
  · rfl
  · split <;> rfl

/-! ## Claim theorems -/

/-- C1: if all 60 status retrievals report a non-terminal status, `/chat`
fails with the 504 timeout error and performs exactly 60 status queries —
none after the budget is spent. -/
theorem chat_timeout_after_60 (req : ChatRequest) (remote : Remote)
    (hreq : ¬ req.thread_id = "")
    (hnt : ∀ k, k < 60 → ¬ isTerminalStatus (remote.retrieve k).status) :
    (chat req remote).1 =
      Except.error ⟨504, "Request timeout: Assistant did not respond in time"⟩ ∧
    (chat req remote).2.status_queries = 60 := by
  have hskip : pollLoop remote.retrieve 0 = LoopExit.exhausted 60 := by
    rw [pollLoop_skip remote.retrieve 0 60 (by omega) (by decide)
      (fun k _ hk => hnt k hk)]
    exact pollLoop_budget_spent remote.retrieve 60 (by decide)
  rw [chat, if_neg hreq, hskip]
  simp only [afterPoll]
  rw [if_pos (by decide)]
  exact ⟨rfl, rfl⟩

def remoteAlwaysInProgress : Remote :=
  { retrieve := fun _ => { status := "in_progress", last_error := none }
    messages := [] }

def reqOk : ChatRequest := { thread_id := "thread_abc", message := "hello" }

/-- C1 witness: a run stuck in `in_progress` for ever times out with 504
after exactly 60 queries. -/
theorem chat_timeout_after_60_witness :
    (chat reqOk remoteAlwaysInProgress).1 =
      Except.error ⟨504, "Request timeout: Assistant did not respond in time"⟩ ∧
    (chat reqOk remoteAlwaysInProgress).2.status_queries = 60 :=
  chat_timeout_after_60 reqOk remoteAlwaysInProgress (by decide) (by decide)

/-- C2: if the run first reports `completed` on the n-th retrieval
(1 ≤ n ≤ 60) and `queued` or `in_progress` on every earlier one, `/chat`
performs exactly n status queries. -/
theorem chat_completes_in_n_queries (req : ChatRequest) (remote : Remote) (n : Nat)
    (hreq : ¬ req.thread_id = "") (hn1 : 1 ≤ n) (hn60 : n ≤ 60)
    (hbefore : ∀ k, k < n - 1 →
      (remote.retrieve k).status = "queued" ∨ (remote.retrieve k).status = "in_progress")
    (hcomp : (remote.retrieve (n - 1)).status = "completed") :
    (chat req remote).2.status_queries = n := by
  have hM : MAX_POLL_ATTEMPTS = 60 := rfl
  have hnt : ∀ k, k < n - 1 → ¬ isTerminalStatus (remote.retrieve k).status := by
    intro k hk
    rcases hbefore k hk with h | h <;> rw [h] <;> decide
  have hskip : pollLoop remote.retrieve 0 = LoopExit.broke (n - 1) := by
    rw [pollLoop_skip remote.retrieve 0 (n - 1) (Nat.zero_le _) (by omega)
      (fun k _ hk => hnt k hk)]
    exact pollLoop_completed remote.retrieve (n - 1) (by omega) hcomp
  rw [chat, if_neg hreq, hskip]
  simp only [afterPoll]
  rw [if_neg (by omega), chatAfterLoop_queries]
  omega

def remoteCompletesAt3 : Remote :=
  { retrieve := fun k =>
      if k < 2 then { status := "queued", last_error := none }
      else { status := "completed", last_error := none }
    messages := [{ content := ["Hi there"] }] }

/-- C2 witness: a run completing on the third retrieval gives exactly 3
status queries. -/
theorem chat_completes_in_n_queries_witness :
    (chat reqOk remoteCompletesAt3).2.status_queries = 3 :=
  chat_completes_in_n_queries reqOk remoteCompletesAt3 3 (by decide) (by decide)
    (by decide) (by decide) (by decide)

/-- C3: the first terminal status observed — success, failure or
`requires_action` — at retrieval index m stops the polling: exactly m+1
status queries happen and no further retrieval follows. -/
theorem chat_stops_at_first_terminal (req : ChatRequest) (remote : Remote) (m : Nat)
    (hreq : ¬ req.thread_id = "") (hm : m < 60)
    (hbefore : ∀ k, k < m → ¬ isTerminalStatus (remote.retrieve k).status)
    (hterm : isTerminalStatus (remote.retrieve m).status) :
    (chat req remote).2.status_queries = m + 1 := by
  have hM : MAX_POLL_ATTEMPTS = 60 := rfl
  have hskip := pollLoop_skip remote.retrieve 0 m (Nat.zero_le m) (by omega)
    (fun k _ hk => hbefore k hk)
  rcases hterm with hc | hf | hr
  · rw [chat, if_neg hreq, hskip, pollLoop_completed remote.retrieve m (by omega) hc]
    simp only [afterPoll]
    rw [if_neg (by omega), chatAfterLoop_queries]
  · rw [chat, if_neg hreq, hskip, pollLoop_failure remote.retrieve m (by omega) hf]
    simp only [afterPoll]
  · rw [chat, if_neg hreq, hskip, pollLoop_requires_action remote.retrieve m (by omega) hr]
    simp only [afterPoll]

def remoteCancelledAtOnce : Remote :=
  { retrieve := fun _ => { status := "cancelled", last_error := none }
    messages := [] }

/-- C3 witness: a run already `cancelled` on the first retrieval is queried
exactly once. -/
theorem chat_stops_at_first_terminal_witness :
    (chat reqOk remoteCancelledAtOnce).2.status_queries = 0 + 1 :=
  chat_stops_at_first_terminal reqOk remoteCancelledAtOnce 0 (by decide) (by decide)
    (by decide) (by decide)

/-- A terminal failure first observed at index m makes `/chat` return the
classified 500 error built by `failureDetail`, with m+1 queries logged. -/
theorem chat_failure_raised (req : ChatRequest) (remote : Remote) (m : Nat)
    (hreq : ¬ req.thread_id = "") (hm : m < 60)
    (hbefore : ∀ k, k < m → ¬ isTerminalStatus (remote.retrieve k).status)
    (hf : (remote.retrieve m).status ∈ failureStatuses) :
    chat req remote =
      (Except.error ⟨500, failureDetail (remote.retrieve m)⟩, ⟨1, 1, m + 1, 0⟩) := by
  have hM : MAX_POLL_ATTEMPTS = 60 := rfl
  have hskip := pollLoop_skip remote.retrieve 0 m (Nat.zero_le m) (by omega)
    (fun k _ hk => hbefore k hk)
  rw [chat, if_neg hreq, hskip, pollLoop_failure remote.retrieve m (by omega) hf]
  simp only [afterPoll]

def remoteCancellingWithError : Remote :=
  { retrieve := fun _ => { status := "cancelling", last_error := some "boom" }
    messages := [] }

/-- C4 counterexample: with status `cancelling` and `last_error` available
(`"boom"`), the 500 detail is exactly `"Run ended with status: cancelling"`;
the upstream error detail `"boom"` is not contained in it, so it is not
passed through even though it is available. -/
theorem chat_cancelling_drops_last_error :
    (chat reqOk remoteCancellingWithError).1 =
      Except.error ⟨500, "Run ended with status: cancelling"⟩ ∧
    ¬ (String.toList "boom" <:+: String.toList "Run ended with status: cancelling") := by
  constructor
  · rw [chat_failure_raised reqOk remoteCancellingWithError 0 (by decide) (by decide)
      (by decide) (by decide)]
    rfl
  · decide

/-- C4 (amended): a terminal failure status yields an HTTP 500 whose detail
names the status; the run's `last_error` is appended to the detail only when
the status is `failed` and `last_error` is present — for the other failure
statuses it is omitted even when available. -/
theorem chat_failure_detail_names_status (req : ChatRequest) (remote : Remote) (m : Nat)
    (hreq : ¬ req.thread_id = "") (hm : m < 60)
    (hbefore : ∀ k, k < m → ¬ isTerminalStatus (remote.retrieve k).status)
    (hf : (remote.retrieve m).status ∈ failureStatuses) :
    (chat req remote).1 = Except.error ⟨500,
      if (remote.retrieve m).status = "failed" then
        match (remote.retrieve m).last_error with
        | some err =>
          "Run ended with status: " ++ (remote.retrieve m).status ++ " - Error: " ++ err
        | none => "Run ended with status: " ++ (remote.retrieve m).status
      else "Run ended with status: " ++ (remote.retrieve m).status⟩ := by
  rw [chat_failure_raised req remote m hreq hm hbefore hf]
  rfl

def remoteFailedWithError : Remote :=
  { retrieve := fun _ => { status := "failed", last_error := some "rate limit exceeded" }
    messages := [] }

/-- C4 witness: a run `failed` with `last_error` present yields the 500
detail naming the status and carrying the upstream error. -/
theorem chat_failure_detail_names_status_witness :
    (chat reqOk remoteFailedWithError).1 =
      Except.error ⟨500, "Run ended with status: failed - Error: rate limit exceeded"⟩ := by
  rw [chat_failure_detail_names_status reqOk remoteFailedWithError 0 (by decide) (by decide)
    (by decide) (by decide)]
  rfl

/-- C5: an empty (falsy) `thread_id` gives a 400 error, and no remote call of
any kind — message creation, run creation, status retrieval or message
listing — is made. -/
theorem chat_missing_thread_id (req : ChatRequest) (remote : Remote)
    (h : req.thread_id = "") :
    (chat req remote).1 = Except.error ⟨400, "Missing thread_id"⟩ ∧
    (chat req remote).2 = ⟨0, 0, 0, 0⟩ := by
  rw [chat, if_pos h]
  exact ⟨rfl, rfl⟩

def reqNoThread : ChatRequest := { thread_id := "", message := "hello" }

/-- C5 witness: a request with empty `thread_id` gets 400 with a zero call
log, whatever the remote would have answered. -/
theorem chat_missing_thread_id_witness :
    (chat reqNoThread remoteAlwaysInProgress).1 = Except.error ⟨400, "Missing thread_id"⟩ ∧
    (chat reqNoThread remoteAlwaysInProgress).2 = ⟨0, 0, 0, 0⟩ :=
  chat_missing_thread_id reqNoThread remoteAlwaysInProgress (by decide)

/-- When the run first reports `completed` at index m, `/chat` continues into
the message-listing tail with m+1 queries performed. -/
theorem chat_completed_after (req : ChatRequest) (remote : Remote) (m : Nat)
    (hreq : ¬ req.thread_id = "") (hm : m < 60)
    (hbefore : ∀ k, k < m → ¬ isTerminalStatus (remote.retrieve k).status)
    (hcomp : (remote.retrieve m).status = "completed") :
    chat req remote = chatAfterLoop remote (m + 1) := by
  have hM : MAX_POLL_ATTEMPTS = 60 := rfl
  have hskip := pollLoop_skip remote.retrieve 0 m (Nat.zero_le m) (by omega)
    (fun k _ hk => hbefore k hk)
  rw [chat, if_neg hreq, hskip, pollLoop_completed remote.retrieve m (by omega) hcomp]
  simp only [afterPoll]
  rw [if_neg (by omega)]

/-- C6: when the run completes but the retrieved message list is empty,
`/chat` fails with the 500 "No response from assistant" error — it is not an
empty success. -/
theorem chat_empty_messages_500 (req : ChatRequest) (remote : Remote) (m : Nat)
    (hreq : ¬ req.thread_id = "") (hm : m < 60)
    (hbefore : ∀ k, k < m → ¬ isTerminalStatus (remote.retrieve k).status)
    (hcomp : (remote.retrieve m).status = "completed")
    (hempty : remote.messages = []) :
    (chat req remote).1 = Except.error ⟨500, "No response from assistant"⟩ := by
  rw [chat_completed_after req remote m hreq hm hbefore hcomp]
  unfold chatAfterLoop
  rw [hempty]
  rfl

def remoteCompletedNoMessages : Remote :=
  { retrieve := fun _ => { status := "completed", last_error := none }
    messages := [] }

/-- C6 witness: immediate completion with an empty message list gives the
500 "No response from assistant" error. -/
theorem chat_empty_messages_500_witness :
    (chat reqOk remoteCompletedNoMessages).1 =
      Except.error ⟨500, "No response from assistant"⟩ :=
  chat_empty_messages_500 reqOk remoteCompletedNoMessages 0 (by decide) (by decide)
    (by decide) (by decide) rfl

/-- C7: when the run completes, the handler lists messages with limit 1 — a
single message, the most recent on the thread — and returns that message's
text as the chat response. -/
theorem chat_completed_returns_latest (req : ChatRequest) (remote : Remote) (m : Nat)
    (msg : Message) (rest : List Message) (c : String) (cs : List String)
    (hreq : ¬ req.thread_id = "") (hm : m < 60)
    (hbefore : ∀ k, k < m → ¬ isTerminalStatus (remote.retrieve k).status)
    (hcomp : (remote.retrieve m).status = "completed")
    (hmsgs : remote.messages = msg :: rest)
    (hcontent : msg.content = c :: cs) :
    (chat req remote).1 = Except.ok ⟨c⟩ ∧
    (chat req remote).2.message_lists = 1 ∧
    (remote.messages.take 1).length = 1 := by
  rw [chat_completed_after req remote m hreq hm hbefore hcomp]
  simp only [chatAfterLoop, hmsgs, hcontent, List.take_succ_cons, List.take_zero,
    List.length_cons, List.length_nil]
  exact ⟨trivial, trivial, trivial⟩

def remoteCompletedWithReply : Remote :=
  { retrieve := fun _ => { status := "completed", last_error := none }
    messages := [{ content := ["All good."] }, { content := ["older message"] }] }

/-- C7 witness: on completion with two messages on the thread, the text of
the most recent one is returned, from a single listed message. -/
theorem chat_completed_returns_latest_witness :
    (chat reqOk remoteCompletedWithReply).1 = Except.ok ⟨"All good."⟩ ∧
    (chat reqOk remoteCompletedWithReply).2.message_lists = 1 ∧
    (remoteCompletedWithReply.messages.take 1).length = 1 :=
  chat_completed_returns_latest reqOk remoteCompletedWithReply 0
    { content := ["All good."] } [{ content := ["older message"] }] "All good." []
    (by decide) (by decide) (by decide) (by decide) rfl rfl

/-- C8: a `requires_action` status stops polling at once — no retrieval after
the m+1 already performed — and raises the unsupported-feature 500 error. -/
theorem chat_requires_action_500 (req : ChatRequest) (remote : Remote) (m : Nat)
    (hreq : ¬ req.thread_id = "") (hm : m < 60)
    (hbefore : ∀ k, k < m → ¬ isTerminalStatus (remote.retrieve k).status)
    (hra : (remote.retrieve m).status = "requires_action") :
    (chat req remote).1 =
      Except.error ⟨500, "Run requires action - function calling not implemented"⟩ ∧
    (chat req remote).2.status_queries = m + 1 := by
  have hM : MAX_POLL_ATTEMPTS = 60 := rfl
  have hskip := pollLoop_skip remote.retrieve 0 m (Nat.zero_le m) (by omega)
    (fun k _ hk => hbefore k hk)
  rw [chat, if_neg hreq, hskip, pollLoop_requires_action remote.retrieve m (by omega) hra]
  exact ⟨rfl, rfl⟩

def remoteRequiresAction : Remote :=
  { retrieve := fun _ => { status := "requires_action", last_error := none }
    messages := [] }

/-- C8 witness: a run reporting `requires_action` on its first retrieval is
queried exactly once and rejected with the unsupported-feature 500. -/
theorem chat_requires_action_500_witness :
    (chat reqOk remoteRequiresAction).1 =
      Except.error ⟨500, "Run requires action - function calling not implemented"⟩ ∧
    (chat reqOk remoteRequiresAction).2.status_queries = 0 + 1 :=
  chat_requires_action_500 reqOk remoteRequiresAction 0 (by decide) (by decide)
    (by decide) (by decide)

/-- C9: any status outside the six enumerated ones — not only `queued` and
`in_progress` — is treated as non-terminal, so a run answering an
unrecognised status on all 60 retrievals ends in the 504 timeout with 60
queries, not in a classified failure. -/
theorem chat_unknown_status_times_out (req : ChatRequest) (remote : Remote)
    (hreq : ¬ req.thread_id = "")
    (hunk : ∀ k, k < 60 → (remote.retrieve k).status ∉
      ["completed", "cancelling", "cancelled", "expired", "failed", "requires_action"]) :
    (chat req remote).1 =
      Except.error ⟨504, "Request timeout: Assistant did not respond in time"⟩ ∧
    (chat req remote).2.status_queries = 60 := by
  have hnt : ∀ k, k < 60 → ¬ isTerminalStatus (remote.retrieve k).status := by
    intro k hk ht
    apply hunk k hk
    rcases ht with h | h | h
    · rw [h]; decide
    · simp only [failureStatuses, List.mem_cons, List.not_mem_nil, or_false] at h
      rcases h with h | h | h | h <;> rw [h] <;> decide
    · rw [h]; decide
  have hskip : pollLoop remote.retrieve 0 = LoopExit.exhausted 60 := by
    rw [pollLoop_skip remote.retrieve 0 60 (by omega) (by decide)
      (fun k _ hk => hnt k hk)]
    exact pollLoop_budget_spent remote.retrieve 60 (by decide)
  rw [chat, if_neg hreq, hskip]
  simp only [afterPoll]
  rw [if_pos (by decide)]
  exact ⟨rfl, rfl⟩

def remoteUnrecognisedStatus : Remote :=
  { retrieve := fun _ => { status := "mysterious_state", last_error := none }
    messages := [] }

/-- C9 witness: a run stuck in the unrecognised status `mysterious_state`
for all 60 retrievals times out with the 504 error after 60 queries. -/
theorem chat_unknown_status_times_out_witness :
    (chat reqOk remoteUnrecognisedStatus).1 =
      Except.error ⟨504, "Request timeout: Assistant did not respond in time"⟩ ∧
    (chat reqOk remoteUnrecognisedStatus).2.status_queries = 60 :=
  chat_unknown_status_times_out reqOk remoteUnrecognisedStatus (by decide) (by decide)

/-- C10: `/health` always succeeds with status `healthy`, for every
configuration state; the two configured flags merely mirror whether the
client handle and the assistant identifier are set. -/
theorem health_check_always_healthy (st : AppState) :
    (health_check st).status = "healthy" ∧
    (health_check st).openai_configured = st.client.isSome ∧
    (health_check st).assistant_configured = st.assistant_id.isSome :=
  ⟨rfl, rfl, rfl⟩
